import Mathlib

/-!
Shallow embedding of the generic-data layer of `src/src/generic.h`
(Open Babel's `OBGenericData` hierarchy): the kind-tag enumeration, the
tagged-record base, the comment record, the unit-cell record with its
orthogonalization/fractionalization matrices, and the torsion record.

C++ `double` values are embedded as `ℝ` (for the unit cell, whose claims
are exact linear-algebra facts) or `ℚ` (for stored-but-uncomputed torsion
angles, keeping equality decidable).  `OBAtom*` pointers are embedded as
natural-number identifiers with `0` as the null pointer.  Method bodies
that are only declared in the header (their definitions live in
translation units outside `src/`) are modelled from the spec and say so
in their doc comments.
-/

/-- The `obDataType` enumeration of `generic.h` (lines 44-69): the closed
kind tag discriminating record variants. -/
inductive obDataType where
  | obUndefinedData
  | obPairData
  | obEnergyData
  | obCommentData
  | obConformerData
  | obExternalBondData
  | obRotamerData
  | obVirtualBondData
  | obRingData
  | obTorsionData
  | obAngleData
  | obSerialNums
  | obUnitCell
  | obSpinData
  | obChargeData
  | obSymmetryData
  | obChiralData
  | obOccupationData
  | obDensityData
  | obElectronicData
  | obVibrationData
  | obRotationData
  | obNuclearData
  | obData0 | obData1 | obData2 | obData3 | obData4 | obData5
  | obData6 | obData7 | obData8 | obData9 | obData10 | obData11
  | obData12 | obData13 | obData14 | obData15
deriving DecidableEq, Repr

/-- `OBGenericData` (generic.h lines 75-92): the polymorphic base carrying
the free-text attribute `_attr` and the kind tag `_type` (here `dtype`). -/
structure OBGenericData where
  attr : String
  dtype : obDataType
deriving DecidableEq, Repr

/-- `OBGenericData::SetAttribute` (generic.h line 86): `_attr = v`. -/
def OBGenericData.SetAttribute (d : OBGenericData) (v : String) : OBGenericData :=
  { d with attr := v }

/-- `OBGenericData::GetAttribute` (generic.h line 88). -/
def OBGenericData.GetAttribute (d : OBGenericData) : String :=
  d.attr

/-- `OBGenericData::GetDataType` (generic.h line 90). -/
def OBGenericData.GetDataType (d : OBGenericData) : obDataType :=
  d.dtype

/-- Whitespace recognized by `Trim`: blank, tab, newline, carriage return. -/
def isTrimWS (c : Char) : Bool :=
  c = ' ' || c = '\t' || c = '\n' || c = '\r'

/-- Modelled from the spec: `Trim` (declared at generic.h line 35, body not
under `src/`) removes leading and trailing whitespace from a string
("always whitespace-trimmed at the boundary"). -/
def Trim (s : String) : String :=
  ⟨((s.data.dropWhile isTrimWS).reverse.dropWhile isTrimWS).reverse⟩

/-- `OBCommentData` (generic.h lines 95-110): a comment string record. -/
structure OBCommentData extends OBGenericData where
  data : String
deriving DecidableEq, Repr

/-- Modelled from the spec: the `OBCommentData` default constructor (body
not under `src/`) fixes the kind tag to `obCommentData` at construction. -/
def OBCommentData.mk0 : OBCommentData :=
  { attr := "Comment", dtype := obDataType.obCommentData, data := "" }

/-- `OBCommentData::SetData` (generic.h lines 104-105):
`_data = data; Trim(_data);`. -/
def OBCommentData.SetData (d : OBCommentData) (s : String) : OBCommentData :=
  { d with data := Trim s }

/-- `OBCommentData::GetData` (generic.h line 108). -/
def OBCommentData.GetData (d : OBCommentData) : String :=
  d.data

/-- `OBCommentData::SetAttribute`, inherited from `OBGenericData`. -/
def OBCommentData.SetAttribute (d : OBCommentData) (v : String) : OBCommentData :=
  { d with toOBGenericData := d.toOBGenericData.SetAttribute v }

/-- `OBCommentData::GetDataType`, inherited from `OBGenericData`. -/
def OBCommentData.GetDataType (d : OBCommentData) : obDataType :=
  d.toOBGenericData.GetDataType

/-- `OBPairData` (generic.h lines 148-166): arbitrary key/value record. -/
structure OBPairData extends OBGenericData where
  value : String
deriving DecidableEq, Repr

/-- Modelled from the spec: the `OBPairData` default constructor (body not
under `src/`) fixes the kind tag to `obPairData` at construction. -/
def OBPairData.mk0 : OBPairData :=
  { attr := "PairData", dtype := obDataType.obPairData, value := "" }

/-- `OBPairData::SetValue` (generic.h lines 154-161): `_value = v`. -/
def OBPairData.SetValue (d : OBPairData) (v : String) : OBPairData :=
  { d with value := v }

/-- `OBPairData::GetValue` (generic.h line 162). -/
def OBPairData.GetValue (d : OBPairData) : String :=
  d.value

/-- `OBPairData::SetAttribute`, inherited from `OBGenericData`. -/
def OBPairData.SetAttribute (d : OBPairData) (v : String) : OBPairData :=
  { d with toOBGenericData := d.toOBGenericData.SetAttribute v }

/-- `OBPairData::GetDataType`, inherited from `OBGenericData`. -/
def OBPairData.GetDataType (d : OBPairData) : obDataType :=
  d.toOBGenericData.GetDataType

/-- `OBSymmetryData` (generic.h lines 318-337): point/space group labels. -/
structure OBSymmetryData extends OBGenericData where
  spaceGroup : String
  pointGroup : String
deriving DecidableEq, Repr

/-- Modelled from the spec: the `OBSymmetryData` default constructor (body
not under `src/`) fixes the kind tag to `obSymmetryData`. -/
def OBSymmetryData.mk0 : OBSymmetryData :=
  { attr := "Symmetry", dtype := obDataType.obSymmetryData,
    spaceGroup := "", pointGroup := "" }

/-- `OBSymmetryData::SetData` (generic.h lines 330-331). -/
def OBSymmetryData.SetData (d : OBSymmetryData) (pg sg : String) : OBSymmetryData :=
  { d with pointGroup := pg, spaceGroup := sg }

/-- `OBSymmetryData::SetPointGroup` (generic.h line 332). -/
def OBSymmetryData.SetPointGroup (d : OBSymmetryData) (pg : String) : OBSymmetryData :=
  { d with pointGroup := pg }

/-- `OBSymmetryData::SetSpaceGroup` (generic.h line 333). -/
def OBSymmetryData.SetSpaceGroup (d : OBSymmetryData) (sg : String) : OBSymmetryData :=
  { d with spaceGroup := sg }

/-- `OBSymmetryData::SetAttribute`, inherited from `OBGenericData`. -/
def OBSymmetryData.SetAttribute (d : OBSymmetryData) (v : String) : OBSymmetryData :=
  { d with toOBGenericData := d.toOBGenericData.SetAttribute v }

/-- `OBSymmetryData::GetDataType`, inherited from `OBGenericData`. -/
def OBSymmetryData.GetDataType (d : OBSymmetryData) : obDataType :=
  d.toOBGenericData.GetDataType

/-- `OBAtom*` pointers embedded as natural-number identifiers; `0` is the
null pointer (`generic.h` initializes `_bc.first = 0`). -/
abbrev Atom : Type := Nat

/-- `OBTorsion` (generic.h lines 341-397): the central pair `_bc` and the
distal triples `_ads` (A atom, D atom, angle in radians; the stored
`double` angle is embedded as `ℚ`, it is only ever stored and compared). -/
structure OBTorsion where
  bc : Atom × Atom
  ads : List (Atom × Atom × ℚ)
deriving DecidableEq, Repr

/-- The protected `OBTorsion` default constructor (generic.h lines 351-356):
`_bc.first = 0; _bc.second = 0;`, with `_ads` default-empty. -/
def OBTorsion.mk0 : OBTorsion :=
  { bc := (0, 0), ads := [] }

/-- `OBTorsion::Empty` (generic.h lines 369-372):
`return (_bc.first == 0 && _bc.second == 0)`. -/
def OBTorsion.Empty (t : OBTorsion) : Bool :=
  t.bc.1 == 0 && t.bc.2 == 0

/-- `OBTorsion::GetSize` (generic.h lines 382-385): `_ads.size()`. -/
def OBTorsion.GetSize (t : OBTorsion) : Nat :=
  t.ads.length

/-- `OBTorsion::GetBC` (generic.h lines 387-390). -/
def OBTorsion.GetBC (t : OBTorsion) : Atom × Atom :=
  t.bc

/-- `OBTorsion::GetADs` (generic.h lines 391-394). -/
def OBTorsion.GetADs (t : OBTorsion) : List (Atom × Atom × ℚ) :=
  t.ads

/-- Modelled from the spec: `OBTorsion::AddTorsion` (declared at generic.h
line 374, body not under `src/`).  On an empty record it establishes
`(b, c)` as the central pair and appends `(a, d, angle = 0)`; on a
non-empty record it requires the new central pair to match the
established one up to swap (`(b,c)` or `(c,b)` both accepted) and appends
the distal triple, otherwise it fails and leaves the record unchanged.
Returns the C++ `bool` result together with the post-call record. -/
def OBTorsion.AddTorsion (t : OBTorsion) (a b c d : Atom) : Bool × OBTorsion :=
  if t.Empty then
    (true, { bc := (b, c), ads := t.ads ++ [(a, d, 0)] })
  else if (b = t.bc.1 ∧ c = t.bc.2) ∨ (b = t.bc.2 ∧ c = t.bc.1) then
    (true, { t with ads := t.ads ++ [(a, d, 0)] })
  else
    (false, t)

/-- Modelled from the spec: `OBTorsion::IsProtonRotor` (declared at
generic.h line 396, body not under `src/`) reports whether every distal
atom (the A and D positions) across all stored triples is a hydrogen;
an empty torsion record yields `false`.  The hydrogen test on `OBAtom`
lives outside this layer and is passed in as the environment `hyd`. -/
def OBTorsion.IsProtonRotor (hyd : Atom → Bool) (t : OBTorsion) : Bool :=
  !t.ads.isEmpty && t.ads.all (fun ad => hyd ad.1 && hyd ad.2.1)

/-- The `vector3` value type used by `OBUnitCell` for the origin offset and
the translation vectors, embedded with real components. -/
structure vector3 where
  x : ℝ
  y : ℝ
  z : ℝ

/-- `OBUnitCell` (generic.h lines 227-269): six scalar lattice parameters,
origin offset, three translation vectors, space-group label, on top of the
`OBGenericData` base. -/
structure OBUnitCell extends OBGenericData where
  a : ℝ
  b : ℝ
  c : ℝ
  alpha : ℝ
  beta : ℝ
  gamma : ℝ
  offset : vector3
  v1 : vector3
  v2 : vector3
  v3 : vector3
  spaceGroup : String

/-- `OBUnitCell::SetData(a,b,c,alpha,beta,gamma)` (generic.h lines 241-244):
`_a = a; _b = b; _c = c; _alpha = alpha; _beta = beta; _gamma = gamma;` —
nothing else is touched. -/
def OBUnitCell.SetData (u : OBUnitCell) (a b c alpha beta gamma : ℝ) : OBUnitCell :=
  { u with a := a, b := b, c := c, alpha := alpha, beta := beta, gamma := gamma }

/-- Modelled from the spec: the overload `OBUnitCell::SetData(v1,v2,v3)`
(declared at generic.h line 245, body not under `src/`) stores the three
explicit translation vectors; the six scalar parameters "are not
automatically recomputed by this setter — the two setters are alternate,
non-synchronizing entry points". -/
def OBUnitCell.SetDataVectors (u : OBUnitCell) (w1 w2 w3 : vector3) : OBUnitCell :=
  { u with v1 := w1, v2 := w2, v3 := w3 }

/-- `OBUnitCell::SetOffset` (generic.h line 246). -/
def OBUnitCell.SetOffset (u : OBUnitCell) (w : vector3) : OBUnitCell :=
  { u with offset := w }

/-- `OBUnitCell::SetSpaceGroup` (generic.h line 250). -/
def OBUnitCell.SetSpaceGroup (u : OBUnitCell) (sg : String) : OBUnitCell :=
  { u with spaceGroup := sg }

/-- `OBUnitCell::GetA` (generic.h line 252). -/
def OBUnitCell.GetA (u : OBUnitCell) : ℝ := u.a

/-- `OBUnitCell::GetB` (generic.h line 253). -/
def OBUnitCell.GetB (u : OBUnitCell) : ℝ := u.b

/-- `OBUnitCell::GetC` (generic.h line 254). -/
def OBUnitCell.GetC (u : OBUnitCell) : ℝ := u.c

/-- `OBUnitCell::GetAlpha` (generic.h line 255). -/
def OBUnitCell.GetAlpha (u : OBUnitCell) : ℝ := u.alpha

/-- `OBUnitCell::GetBeta` (generic.h line 256). -/
def OBUnitCell.GetBeta (u : OBUnitCell) : ℝ := u.beta

/-- `OBUnitCell::GetGamma` (generic.h line 257). -/
def OBUnitCell.GetGamma (u : OBUnitCell) : ℝ := u.gamma

/-- `OBUnitCell::GetOffset` (generic.h line 258). -/
def OBUnitCell.GetOffset (u : OBUnitCell) : vector3 := u.offset

/-- `OBUnitCell::GetSpaceGroup` (generic.h line 259). -/
def OBUnitCell.GetSpaceGroup (u : OBUnitCell) : String := u.spaceGroup

/-- `OBUnitCell::SetAttribute`, inherited from `OBGenericData`. -/
def OBUnitCell.SetAttribute (u : OBUnitCell) (v : String) : OBUnitCell :=
  { u with toOBGenericData := u.toOBGenericData.SetAttribute v }

/-- `OBUnitCell::GetDataType`, inherited from `OBGenericData`. -/
def OBUnitCell.GetDataType (u : OBUnitCell) : obDataType :=
  u.toOBGenericData.GetDataType

/-- Modelled from the spec: a default-constructed `OBUnitCell` (constructor
body not under `src/`) carries the kind tag `obUnitCell`. -/
def OBUnitCell.mk0 : OBUnitCell :=
  { attr := "UnitCell", dtype := obDataType.obUnitCell,
    a := 1, b := 1, c := 1, alpha := 90, beta := 90, gamma := 90,
    offset := ⟨0, 0, 0⟩, v1 := ⟨0, 0, 0⟩, v2 := ⟨0, 0, 0⟩, v3 := ⟨0, 0, 0⟩,
    spaceGroup := "" }

/-- The volume factor `sqrt(1 - cos²α - cos²β - cos²γ + 2 cosα cosβ cosγ)`
entering the third cell vector; the signed cell volume is `a b c` times
this factor. -/
noncomputable def cellVolumeFactor (u : OBUnitCell) : ℝ :=
  Real.sqrt (1 - Real.cos u.alpha ^ 2 - Real.cos u.beta ^ 2 - Real.cos u.gamma ^ 2
    + 2 * Real.cos u.alpha * Real.cos u.beta * Real.cos u.gamma)

/-- Modelled from the spec: `OBUnitCell::GetOrthoMatrix` (declared at
generic.h line 266, body not under `src/`) maps fractional to Cartesian
coordinates for a cell established from the six scalars, with the
standard crystallographic convention of §4.2: cell vector 1 along the
x-axis with length `a`; vector 2 in the xy-plane with length `b` at angle
`γ` from vector 1; vector 3 computed from `b`, `c`, `cos α`, `cos β`,
`cos γ` and the triple-product volume so the signed volume is positive.
The cell vectors are the matrix columns, so the matrix applied to a
fractional coordinate vector yields the Cartesian point.  Angles are
taken in radians. -/
noncomputable def OBUnitCell.GetOrthoMatrix (u : OBUnitCell) : Matrix (Fin 3) (Fin 3) ℝ :=
  !![u.a, u.b * Real.cos u.gamma, u.c * Real.cos u.beta;
     0,   u.b * Real.sin u.gamma,
          u.c * (Real.cos u.alpha - Real.cos u.beta * Real.cos u.gamma) / Real.sin u.gamma;
     0,   0, u.c * cellVolumeFactor u / Real.sin u.gamma]

open scoped Classical in
/-- Modelled from the spec: `OBUnitCell::GetFractionalMatrix` (declared at
generic.h line 268, body not under `src/`) is the matrix inverse of the
orthogonalization matrix, mapping Cartesian to fractional coordinates;
a degenerate (zero-volume, singular) lattice "must fail with a singular
lattice condition rather than silently returning a garbage inverse", so
the result is `none` exactly when the orthogonalization matrix is
singular. -/
noncomputable def OBUnitCell.GetFractionalMatrix (u : OBUnitCell) :
    Option (Matrix (Fin 3) (Fin 3) ℝ) :=
  if u.GetOrthoMatrix.det = 0 then none else some u.GetOrthoMatrix⁻¹

/-- A valid (non-degenerate) six-scalar cell definition: positive lengths,
`sin γ` positive (γ strictly between 0 and π), and positive squared
volume factor. -/
def OBUnitCell.ValidCell (u : OBUnitCell) : Prop :=
  0 < u.a ∧ 0 < u.b ∧ 0 < u.c ∧ 0 < Real.sin u.gamma ∧
  0 < 1 - Real.cos u.alpha ^ 2 - Real.cos u.beta ^ 2 - Real.cos u.gamma ^ 2
    + 2 * Real.cos u.alpha * Real.cos u.beta * Real.cos u.gamma

/-- `OBBond*` pointers embedded as natural-number identifiers, like
`OBAtom*`. -/
abbrev OBBondRef : Type := Nat

/-- `OBRing*` pointers embedded as natural-number identifiers. -/
abbrev OBRingRef : Type := Nat

/-- `OBExternalBond` (generic.h lines 114-131): a connection index plus
non-owning references to an atom and a bond outside the current
structural context.  Not derived from `OBGenericData`. -/
structure OBExternalBond where
  idx : Int
  atom : Atom
  bond : OBBondRef
deriving DecidableEq, Repr

/-- `OBExternalBondData` (generic.h lines 134-145): an ordered sequence of
external bonds, on top of the `OBGenericData` base. -/
structure OBExternalBondData extends OBGenericData where
  vexbnd : List OBExternalBond
deriving DecidableEq, Repr

/-- Modelled from the spec: the `OBExternalBondData` constructor (body not
under `src/`) fixes the kind tag to `obExternalBondData`. -/
def OBExternalBondData.mk0 : OBExternalBondData :=
  { attr := "ExternalBondData", dtype := obDataType.obExternalBondData,
    vexbnd := [] }

/-- Modelled from the spec: `OBExternalBondData::SetData` (declared at
generic.h line 140, body not under `src/`) appends one external-bond
entry — the collection is "append-only via the owning structure". -/
def OBExternalBondData.SetData (d : OBExternalBondData)
    (a : Atom) (b : OBBondRef) (i : Int) : OBExternalBondData :=
  { d with vexbnd := d.vexbnd ++ [⟨i, a, b⟩] }

/-- `OBExternalBondData::SetAttribute`, inherited from `OBGenericData`. -/
def OBExternalBondData.SetAttribute (d : OBExternalBondData) (v : String) :
    OBExternalBondData :=
  { d with toOBGenericData := d.toOBGenericData.SetAttribute v }

/-- `OBExternalBondData::GetDataType`, inherited from `OBGenericData`. -/
def OBExternalBondData.GetDataType (d : OBExternalBondData) : obDataType :=
  d.toOBGenericData.GetDataType

/-- `OBVirtualBond` (generic.h lines 170-196): begin/end atom indices,
bond order, stereo flag, on top of the `OBGenericData` base; the header
exposes only getters, no mutators. -/
structure OBVirtualBond extends OBGenericData where
  bgn : Int
  end_ : Int
  ord : Int
  stereo : Int
deriving DecidableEq, Repr

/-- Modelled from the spec: the `OBVirtualBond` default constructor (body
not under `src/`) fixes the kind tag to `obVirtualBondData`. -/
def OBVirtualBond.mk0 : OBVirtualBond :=
  { attr := "VirtualBondData", dtype := obDataType.obVirtualBondData,
    bgn := 0, end_ := 0, ord := 0, stereo := 0 }

/-- Modelled from the spec: the `OBVirtualBond(int,int,int,int stereo=0)`
constructor (declared at generic.h line 179, body not under `src/`)
stores the begin/end indices, order and stereo flag and fixes the kind
tag to `obVirtualBondData`. -/
def OBVirtualBond.mkArgs (bgn end_ ord stereo : Int) : OBVirtualBond :=
  { attr := "VirtualBondData", dtype := obDataType.obVirtualBondData,
    bgn := bgn, end_ := end_, ord := ord, stereo := stereo }

/-- `OBVirtualBond::GetBgn` (generic.h line 180). -/
def OBVirtualBond.GetBgn (d : OBVirtualBond) : Int := d.bgn

/-- `OBVirtualBond::GetEnd` (generic.h line 184). -/
def OBVirtualBond.GetEnd (d : OBVirtualBond) : Int := d.end_

/-- `OBVirtualBond::GetOrder` (generic.h line 188). -/
def OBVirtualBond.GetOrder (d : OBVirtualBond) : Int := d.ord

/-- `OBVirtualBond::GetStereo` (generic.h line 192). -/
def OBVirtualBond.GetStereo (d : OBVirtualBond) : Int := d.stereo

/-- `OBVirtualBond::SetAttribute`, inherited from `OBGenericData`. -/
def OBVirtualBond.SetAttribute (d : OBVirtualBond) (v : String) : OBVirtualBond :=
  { d with toOBGenericData := d.toOBGenericData.SetAttribute v }

/-- `OBVirtualBond::GetDataType`, inherited from `OBGenericData`. -/
def OBVirtualBond.GetDataType (d : OBVirtualBond) : obDataType :=
  d.toOBGenericData.GetDataType

/-- `OBRingData` (generic.h lines 199-222): the SSSR ring references. -/
structure OBRingData extends OBGenericData where
  vr : List OBRingRef
deriving DecidableEq, Repr

/-- Modelled from the spec: the `OBRingData` default constructor (body not
under `src/`) fixes the kind tag to `obRingData`. -/
def OBRingData.mk0 : OBRingData :=
  { attr := "RingData", dtype := obDataType.obRingData, vr := [] }

/-- `OBRingData::SetData` (generic.h lines 210-213): `_vr = vr`. -/
def OBRingData.SetData (d : OBRingData) (vr : List OBRingRef) : OBRingData :=
  { d with vr := vr }

/-- `OBRingData::PushBack` (generic.h lines 214-217): `_vr.push_back(r)`. -/
def OBRingData.PushBack (d : OBRingData) (r : OBRingRef) : OBRingData :=
  { d with vr := d.vr ++ [r] }

/-- `OBRingData::SetAttribute`, inherited from `OBGenericData`. -/
def OBRingData.SetAttribute (d : OBRingData) (v : String) : OBRingData :=
  { d with toOBGenericData := d.toOBGenericData.SetAttribute v }

/-- `OBRingData::GetDataType`, inherited from `OBGenericData`. -/
def OBRingData.GetDataType (d : OBRingData) : obDataType :=
  d.toOBGenericData.GetDataType

/-- `OBConformerData` (generic.h lines 272-313): the six parallel
per-conformer sequences (`unsigned short` dimensionalities embedded as
`ℕ`, energies as `ℝ`, forces/velocities/displacements as per-conformer
lists of 3-vectors, free-form annotations as strings). -/
structure OBConformerData extends OBGenericData where
  vDimension : List Nat
  vEnergies : List ℝ
  vForces : List (List vector3)
  vVelocity : List (List vector3)
  vDisplace : List (List vector3)
  vData : List String

/-- Modelled from the spec: the `OBConformerData` default constructor
(body not under `src/`) fixes the kind tag to `obConformerData`. -/
def OBConformerData.mk0 : OBConformerData :=
  { attr := "Conformers", dtype := obDataType.obConformerData,
    vDimension := [], vEnergies := [], vForces := [], vVelocity := [],
    vDisplace := [], vData := [] }

/-- `OBConformerData::SetDimension` (generic.h line 295). -/
def OBConformerData.SetDimension (d : OBConformerData) (vd : List Nat) :
    OBConformerData :=
  { d with vDimension := vd }

/-- `OBConformerData::SetEnergies` (generic.h line 296). -/
def OBConformerData.SetEnergies (d : OBConformerData) (ve : List ℝ) :
    OBConformerData :=
  { d with vEnergies := ve }

/-- `OBConformerData::SetForces` (generic.h line 297). -/
def OBConformerData.SetForces (d : OBConformerData) (vf : List (List vector3)) :
    OBConformerData :=
  { d with vForces := vf }

/-- `OBConformerData::SetVelocities` (generic.h lines 298-299). -/
def OBConformerData.SetVelocities (d : OBConformerData)
    (vv : List (List vector3)) : OBConformerData :=
  { d with vVelocity := vv }

/-- `OBConformerData::SetDisplacements` (generic.h lines 300-301). -/
def OBConformerData.SetDisplacements (d : OBConformerData)
    (vd : List (List vector3)) : OBConformerData :=
  { d with vDisplace := vd }

/-- `OBConformerData::SetData` (generic.h line 302). -/
def OBConformerData.SetData (d : OBConformerData) (vdat : List String) :
    OBConformerData :=
  { d with vData := vdat }

/-- `OBConformerData::SetAttribute`, inherited from `OBGenericData`. -/
def OBConformerData.SetAttribute (d : OBConformerData) (v : String) :
    OBConformerData :=
  { d with toOBGenericData := d.toOBGenericData.SetAttribute v }

/-- `OBConformerData::GetDataType`, inherited from `OBGenericData`. -/
def OBConformerData.GetDataType (d : OBConformerData) : obDataType :=
  d.toOBGenericData.GetDataType

/-- `OBTorsionData` (generic.h lines 401-428): the torsion collection. -/
structure OBTorsionData extends OBGenericData where
  torsions : List OBTorsion
deriving DecidableEq, Repr

/-- Modelled from the spec: the protected `OBTorsionData` constructor
(body not under `src/`) fixes the kind tag to `obTorsionData`. -/
def OBTorsionData.mk0 : OBTorsionData :=
  { attr := "TorsionData", dtype := obDataType.obTorsionData, torsions := [] }

/-- Modelled from the spec: `OBTorsionData::Clear` (declared at generic.h
line 414, body not under `src/`) empties the collection — the torsion
set is "rebuildable/clearable as a unit". -/
def OBTorsionData.Clear (d : OBTorsionData) : OBTorsionData :=
  { d with torsions := [] }

/-- Modelled from the spec: `OBTorsionData::SetData` (declared at
generic.h line 425, body not under `src/`) appends one torsion record to
the ordered collection rebuilt by repeated `SetData` calls. -/
def OBTorsionData.SetData (d : OBTorsionData) (t : OBTorsion) : OBTorsionData :=
  { d with torsions := d.torsions ++ [t] }

/-- `OBTorsionData::GetSize` (generic.h lines 420-423). -/
def OBTorsionData.GetSize (d : OBTorsionData) : Nat :=
  d.torsions.length

/-- `OBTorsionData::SetAttribute`, inherited from `OBGenericData`. -/
def OBTorsionData.SetAttribute (d : OBTorsionData) (v : String) : OBTorsionData :=
  { d with toOBGenericData := d.toOBGenericData.SetAttribute v }

/-- `OBTorsionData::GetDataType`, inherited from `OBGenericData`. -/
def OBTorsionData.GetDataType (d : OBTorsionData) : obDataType :=
  d.toOBGenericData.GetDataType

/-- `OBAngle` (generic.h lines 431-477): vertex atom, terminus pair, and
the angle value in radians (the stored `double` embedded as `ℚ`, it is
only ever stored and compared).  Not derived from `OBGenericData`. -/
structure OBAngle where
  vertex : Atom
  termini : Atom × Atom
  radians : ℚ
deriving DecidableEq, Repr

/-- `OBAngleData` (generic.h lines 481-505): the angle collection. -/
structure OBAngleData extends OBGenericData where
  angles : List OBAngle
deriving DecidableEq, Repr

/-- Modelled from the spec: the protected `OBAngleData` constructor (body
not under `src/`) fixes the kind tag to `obAngleData`. -/
def OBAngleData.mk0 : OBAngleData :=
  { attr := "AngleData", dtype := obDataType.obAngleData, angles := [] }

/-- Modelled from the spec: `OBAngleData::Clear` (declared at generic.h
line 498, body not under `src/`) empties the collection. -/
def OBAngleData.Clear (d : OBAngleData) : OBAngleData :=
  { d with angles := [] }

/-- Modelled from the spec: `OBAngleData::SetData` (declared at generic.h
line 500, body not under `src/`) appends one angle record to the ordered
collection. -/
def OBAngleData.SetData (d : OBAngleData) (a : OBAngle) : OBAngleData :=
  { d with angles := d.angles ++ [a] }

/-- `OBAngleData::GetSize` (generic.h lines 501-504). -/
def OBAngleData.GetSize (d : OBAngleData) : Nat :=
  d.angles.length

/-- `OBAngleData::SetAttribute`, inherited from `OBGenericData`. -/
def OBAngleData.SetAttribute (d : OBAngleData) (v : String) : OBAngleData :=
  { d with toOBGenericData := d.toOBGenericData.SetAttribute v }

/-- `OBAngleData::GetDataType`, inherited from `OBGenericData`. -/
def OBAngleData.GetDataType (d : OBAngleData) : obDataType :=
  d.toOBGenericData.GetDataType

/-- C7: after `OBCommentData::SetData(s)` the value returned by `GetData()`
is `s` with leading and trailing whitespace removed (the header inline body
stores the argument and trims it in place); in particular
`SetData(" hi \n")` yields `GetData() == "hi"`. -/
theorem commentData_setData_trims (d : OBCommentData) (s : String) :
    (d.SetData s).GetData = Trim s ∧ (d.SetData " hi \n").GetData = "hi" := by
  refine ⟨rfl, ?_⟩
  show Trim " hi \n" = "hi"
  decide

/-- C9: `OBTorsion::Empty` returns true iff both central-atom references
(the pair returned by `GetBC`) are null, and a freshly default-constructed
`OBTorsion` is empty. -/
theorem torsion_empty_iff (t : OBTorsion) :
    (t.Empty = true ↔ t.GetBC.1 = 0 ∧ t.GetBC.2 = 0) ∧
    OBTorsion.mk0.Empty = true := by
  refine ⟨?_, rfl⟩
  simp [OBTorsion.Empty, OBTorsion.GetBC]

/-- C10: the six-scalar `OBUnitCell::SetData` is total and unvalidated:
for arbitrary real inputs (including zero or negative lengths and arbitrary
angles) the getters afterwards return exactly the values passed in. -/
theorem unitCell_setData_total (u : OBUnitCell) (a b c alpha beta gamma : ℝ) :
    (u.SetData a b c alpha beta gamma).GetA = a ∧
    (u.SetData a b c alpha beta gamma).GetB = b ∧
    (u.SetData a b c alpha beta gamma).GetC = c ∧
    (u.SetData a b c alpha beta gamma).GetAlpha = alpha ∧
    (u.SetData a b c alpha beta gamma).GetBeta = beta ∧
    (u.SetData a b c alpha beta gamma).GetGamma = gamma :=
  ⟨rfl, rfl, rfl, rfl, rfl, rfl⟩

/-- C4: the two `OBUnitCell` setters do not synchronize the other lattice
representation: the six-scalar `SetData` leaves the translation vectors,
the offset and the space-group label unchanged, and the vector overload
leaves the six scalar parameters unchanged while storing the vectors. -/
theorem unitCell_setters_no_sync (u : OBUnitCell) (a b c alpha beta gamma : ℝ)
    (w1 w2 w3 : vector3) :
    ((u.SetData a b c alpha beta gamma).v1 = u.v1 ∧
     (u.SetData a b c alpha beta gamma).v2 = u.v2 ∧
     (u.SetData a b c alpha beta gamma).v3 = u.v3 ∧
     (u.SetData a b c alpha beta gamma).GetOffset = u.GetOffset ∧
     (u.SetData a b c alpha beta gamma).GetSpaceGroup = u.GetSpaceGroup) ∧
    ((u.SetDataVectors w1 w2 w3).GetA = u.GetA ∧
     (u.SetDataVectors w1 w2 w3).GetB = u.GetB ∧
     (u.SetDataVectors w1 w2 w3).GetC = u.GetC ∧
     (u.SetDataVectors w1 w2 w3).GetAlpha = u.GetAlpha ∧
     (u.SetDataVectors w1 w2 w3).GetBeta = u.GetBeta ∧
     (u.SetDataVectors w1 w2 w3).GetGamma = u.GetGamma ∧
     (u.SetDataVectors w1 w2 w3).v1 = w1 ∧
     (u.SetDataVectors w1 w2 w3).v2 = w2 ∧
     (u.SetDataVectors w1 w2 w3).v3 = w3) :=
  ⟨⟨rfl, rfl, rfl, rfl, rfl⟩, rfl, rfl, rfl, rfl, rfl, rfl, rfl, rfl, rfl⟩

/-- C8: the kind tag returned by `GetDataType` never changes after
construction: for every concrete record kind derived from
`OBGenericData` in `generic.h` (`OBCommentData`, `OBExternalBondData`,
`OBPairData`, `OBVirtualBond`, `OBRingData`, `OBUnitCell`,
`OBConformerData`, `OBSymmetryData`, `OBTorsionData`, `OBAngleData`),
every mutator — `SetAttribute` and every kind-specific setter — preserves
it, and each constructor fixes it to the kind of its class. -/
theorem dataType_immutable
    (g : OBGenericData) (cd : OBCommentData) (pd : OBPairData)
    (sd : OBSymmetryData) (u : OBUnitCell)
    (ebd : OBExternalBondData) (vb : OBVirtualBond) (rd : OBRingData)
    (cf : OBConformerData) (td : OBTorsionData) (ad : OBAngleData)
    (v s pg sg : String) (a b c alpha beta gamma : ℝ) (w w1 w2 w3 : vector3)
    (at1 : Atom) (bd : OBBondRef) (i n1 n2 n3 n4 : Int)
    (rg : OBRingRef) (rs : List OBRingRef)
    (vd : List Nat) (ve : List ℝ) (vf vv vdis : List (List vector3))
    (vstr : List String) (tor : OBTorsion) (ang : OBAngle) :
    (g.SetAttribute v).GetDataType = g.GetDataType ∧
    (cd.SetAttribute v).GetDataType = cd.GetDataType ∧
    (cd.SetData s).GetDataType = cd.GetDataType ∧
    (pd.SetAttribute v).GetDataType = pd.GetDataType ∧
    (pd.SetValue s).GetDataType = pd.GetDataType ∧
    (sd.SetAttribute v).GetDataType = sd.GetDataType ∧
    (sd.SetData pg sg).GetDataType = sd.GetDataType ∧
    (sd.SetPointGroup pg).GetDataType = sd.GetDataType ∧
    (sd.SetSpaceGroup sg).GetDataType = sd.GetDataType ∧
    (u.SetAttribute v).GetDataType = u.GetDataType ∧
    (u.SetData a b c alpha beta gamma).GetDataType = u.GetDataType ∧
    (u.SetDataVectors w1 w2 w3).GetDataType = u.GetDataType ∧
    (u.SetOffset w).GetDataType = u.GetDataType ∧
    (u.SetSpaceGroup sg).GetDataType = u.GetDataType ∧
    (ebd.SetAttribute v).GetDataType = ebd.GetDataType ∧
    (ebd.SetData at1 bd i).GetDataType = ebd.GetDataType ∧
    (vb.SetAttribute v).GetDataType = vb.GetDataType ∧
    (rd.SetAttribute v).GetDataType = rd.GetDataType ∧
    (rd.SetData rs).GetDataType = rd.GetDataType ∧
    (rd.PushBack rg).GetDataType = rd.GetDataType ∧
    (cf.SetAttribute v).GetDataType = cf.GetDataType ∧
    (cf.SetDimension vd).GetDataType = cf.GetDataType ∧
    (cf.SetEnergies ve).GetDataType = cf.GetDataType ∧
    (cf.SetForces vf).GetDataType = cf.GetDataType ∧
    (cf.SetVelocities vv).GetDataType = cf.GetDataType ∧
    (cf.SetDisplacements vdis).GetDataType = cf.GetDataType ∧
    (cf.SetData vstr).GetDataType = cf.GetDataType ∧
    (td.SetAttribute v).GetDataType = td.GetDataType ∧
    td.Clear.GetDataType = td.GetDataType ∧
    (td.SetData tor).GetDataType = td.GetDataType ∧
    (ad.SetAttribute v).GetDataType = ad.GetDataType ∧
    ad.Clear.GetDataType = ad.GetDataType ∧
    (ad.SetData ang).GetDataType = ad.GetDataType ∧
    OBCommentData.mk0.GetDataType = obDataType.obCommentData ∧
    OBPairData.mk0.GetDataType = obDataType.obPairData ∧
    OBSymmetryData.mk0.GetDataType = obDataType.obSymmetryData ∧
    OBUnitCell.mk0.GetDataType = obDataType.obUnitCell ∧
    OBExternalBondData.mk0.GetDataType = obDataType.obExternalBondData ∧
    OBVirtualBond.mk0.GetDataType = obDataType.obVirtualBondData ∧
    (OBVirtualBond.mkArgs n1 n2 n3 n4).GetDataType = obDataType.obVirtualBondData ∧
    OBRingData.mk0.GetDataType = obDataType.obRingData ∧
    OBConformerData.mk0.GetDataType = obDataType.obConformerData ∧
    OBTorsionData.mk0.GetDataType = obDataType.obTorsionData ∧
    OBAngleData.mk0.GetDataType = obDataType.obAngleData := by
  repeat refine ⟨rfl, ?_⟩
  rfl

/-- C2: once a central pair is established (the record is not empty), a
call to `AddTorsion` whose unordered central pair differs from the
established one returns `false` and leaves the record unchanged: same
record, same `GetSize()`, same stored distal triples. -/
theorem addTorsion_mismatch_fails (t : OBTorsion) (a b c d : Atom)
    (hest : t.Empty = false)
    (hmis : ¬((b = t.GetBC.1 ∧ c = t.GetBC.2) ∨ (b = t.GetBC.2 ∧ c = t.GetBC.1))) :
    (t.AddTorsion a b c d).1 = false ∧ (t.AddTorsion a b c d).2 = t ∧
    (t.AddTorsion a b c d).2.GetSize = t.GetSize ∧
    (t.AddTorsion a b c d).2.GetADs = t.GetADs := by
  rw [OBTorsion.GetBC] at hmis
  simp [OBTorsion.AddTorsion, hest, hmis]

/-- Witness for C2 at a concrete record: central pair `(1, 2)` with one
distal triple, then `AddTorsion 5 1 3 6` (central pair `{1, 3}`). -/
theorem addTorsion_mismatch_fails_witness :
    OBTorsion.Empty ⟨(1, 2), [(3, 4, 0)]⟩ = false ∧
    ¬((1 = (OBTorsion.GetBC ⟨(1, 2), [(3, 4, 0)]⟩).1 ∧
       3 = (OBTorsion.GetBC ⟨(1, 2), [(3, 4, 0)]⟩).2) ∨
      (1 = (OBTorsion.GetBC ⟨(1, 2), [(3, 4, 0)]⟩).2 ∧
       3 = (OBTorsion.GetBC ⟨(1, 2), [(3, 4, 0)]⟩).1)) ∧
    ((OBTorsion.AddTorsion ⟨(1, 2), [(3, 4, 0)]⟩ 5 1 3 6).1 = false ∧
     (OBTorsion.AddTorsion ⟨(1, 2), [(3, 4, 0)]⟩ 5 1 3 6).2 = ⟨(1, 2), [(3, 4, 0)]⟩ ∧
     (OBTorsion.AddTorsion ⟨(1, 2), [(3, 4, 0)]⟩ 5 1 3 6).2.GetSize =
       OBTorsion.GetSize ⟨(1, 2), [(3, 4, 0)]⟩ ∧
     (OBTorsion.AddTorsion ⟨(1, 2), [(3, 4, 0)]⟩ 5 1 3 6).2.GetADs =
       OBTorsion.GetADs ⟨(1, 2), [(3, 4, 0)]⟩) :=
  ⟨by decide, by decide,
   addTorsion_mismatch_fails ⟨(1, 2), [(3, 4, 0)]⟩ 5 1 3 6 (by decide) (by decide)⟩

/-- C3: from a fresh (empty, no stored triples) record, calling
`AddTorsion` with central atoms `(b, c)` and then with the swapped central
atoms `(c, b)` succeeds both times and yields two distal triples. -/
theorem addTorsion_swapped_central_ok (t : OBTorsion) (a b c d a2 d2 : Atom)
    (hE : t.Empty = true) (hads : t.ads = []) :
    (t.AddTorsion a b c d).1 = true ∧
    ((t.AddTorsion a b c d).2.AddTorsion a2 c b d2).1 = true ∧
    ((t.AddTorsion a b c d).2.AddTorsion a2 c b d2).2.GetSize = 2 := by
  have h1 : t.AddTorsion a b c d = (true, ⟨(b, c), [(a, d, 0)]⟩) := by
    simp [OBTorsion.AddTorsion, hE, hads]
  rw [h1]
  by_cases hbc : OBTorsion.Empty ⟨(b, c), [(a, d, 0)]⟩ = true
  · simp [OBTorsion.AddTorsion, hbc, OBTorsion.GetSize]
  · simp [OBTorsion.AddTorsion, hbc, OBTorsion.GetSize]

/-- Witness for C3 at a fresh record with atoms `1 2 3 4`, then `5 3 2 6`. -/
theorem addTorsion_swapped_central_ok_witness :
    OBTorsion.mk0.Empty = true ∧ OBTorsion.mk0.ads = [] ∧
    ((OBTorsion.mk0.AddTorsion 1 2 3 4).1 = true ∧
     ((OBTorsion.mk0.AddTorsion 1 2 3 4).2.AddTorsion 5 3 2 6).1 = true ∧
     ((OBTorsion.mk0.AddTorsion 1 2 3 4).2.AddTorsion 5 3 2 6).2.GetSize = 2) :=
  ⟨by decide, by decide,
   addTorsion_swapped_central_ok OBTorsion.mk0 1 2 3 4 5 6 (by decide) (by decide)⟩

/-- C6: `IsProtonRotor` returns `true` iff the record holds at least one
distal triple and every distal atom (the A and D positions across all
stored triples) is a hydrogen; in particular it is `false` when some
distal atom is not hydrogen and `false` on an empty record. -/
theorem isProtonRotor_iff (hyd : Atom → Bool) (t : OBTorsion) :
    OBTorsion.IsProtonRotor hyd t = true ↔
      t.GetADs ≠ [] ∧ ∀ ad ∈ t.GetADs, hyd ad.1 = true ∧ hyd ad.2.1 = true := by
  simp [OBTorsion.IsProtonRotor, OBTorsion.GetADs, List.all_eq_true,
    List.isEmpty_iff]

/-- The determinant of the orthogonalization matrix: the matrix is upper
triangular, so the determinant is the product of the diagonal, which is
the signed cell volume `a · b sin γ · c V / sin γ`. -/
theorem orthoMatrix_det (u : OBUnitCell) :
    u.GetOrthoMatrix.det =
      u.a * (u.b * Real.sin u.gamma) *
        (u.c * cellVolumeFactor u / Real.sin u.gamma) := by
  simp [OBUnitCell.GetOrthoMatrix, Matrix.det_fin_three, Matrix.vecHead,
    Matrix.vecTail]

/-- C1: for every unit cell set from a valid (non-degenerate) six-scalar
definition, `GetFractionalMatrix()` succeeds and returns the two-sided
inverse of `GetOrthoMatrix()`: the products are exactly the identity
matrix (so in particular within the 1e-9 absolute tolerance, stated as
the entrywise bound below), and for every Cartesian point `p` the
fractionalization/orthogonalization round trips return `p`. -/
theorem fractional_inverse_of_valid (u : OBUnitCell) (h : u.ValidCell) :
    ∃ F, u.GetFractionalMatrix = some F ∧
      F * u.GetOrthoMatrix = 1 ∧
      u.GetOrthoMatrix * F = 1 ∧
      (∀ i j, |(F * u.GetOrthoMatrix - 1) i j| ≤ 1e-9) ∧
      ∀ p : Fin 3 → ℝ,
        F.mulVec (u.GetOrthoMatrix.mulVec p) = p ∧
        u.GetOrthoMatrix.mulVec (F.mulVec p) = p := by
  obtain ⟨ha, hb, hc, hs, hv⟩ := h
  have hV : 0 < cellVolumeFactor u := Real.sqrt_pos.mpr hv
  have hdet : u.GetOrthoMatrix.det ≠ 0 := by
    rw [orthoMatrix_det]
    exact ne_of_gt (mul_pos (mul_pos ha (mul_pos hb hs))
      (div_pos (mul_pos hc hV) hs))
  have hunit : IsUnit u.GetOrthoMatrix.det := isUnit_iff_ne_zero.mpr hdet
  have hFO : u.GetOrthoMatrix⁻¹ * u.GetOrthoMatrix = 1 :=
    Matrix.nonsing_inv_mul _ hunit
  have hOF : u.GetOrthoMatrix * u.GetOrthoMatrix⁻¹ = 1 :=
    Matrix.mul_nonsing_inv _ hunit
  refine ⟨u.GetOrthoMatrix⁻¹, ?_, hFO, hOF, ?_, ?_⟩
  · rw [OBUnitCell.GetFractionalMatrix, if_neg hdet]
  · intro i j
    rw [hFO]
    simp
    norm_num
  · intro p
    constructor
    · rw [Matrix.mulVec_mulVec, hFO, Matrix.one_mulVec]
    · rw [Matrix.mulVec_mulVec, hOF, Matrix.one_mulVec]

/-- The cubic cell of §8's concrete scenario, established through the
six-scalar setter: `a = b = c = 10`, `α = β = γ = π/2` radians. -/
noncomputable def uCubic : OBUnitCell :=
  OBUnitCell.mk0.SetData 10 10 10 (Real.pi / 2) (Real.pi / 2) (Real.pi / 2)

/-- Witness for C1 at the concrete cubic cell `uCubic`. -/
theorem fractional_inverse_of_valid_witness :
    uCubic.ValidCell ∧
    ∃ F, uCubic.GetFractionalMatrix = some F ∧
      F * uCubic.GetOrthoMatrix = 1 ∧
      uCubic.GetOrthoMatrix * F = 1 ∧
      (∀ i j, |(F * uCubic.GetOrthoMatrix - 1) i j| ≤ 1e-9) ∧
      ∀ p : Fin 3 → ℝ,
        F.mulVec (uCubic.GetOrthoMatrix.mulVec p) = p ∧
        uCubic.GetOrthoMatrix.mulVec (F.mulVec p) = p := by
  have hval : uCubic.ValidCell := by
    unfold uCubic OBUnitCell.ValidCell OBUnitCell.SetData OBUnitCell.mk0
    norm_num [Real.sin_pi_div_two, Real.cos_pi_div_two]
  exact ⟨hval, fractional_inverse_of_valid uCubic hval⟩

/-- C5: for every degenerate (zero-volume, singular orthogonalization
matrix) unit cell, `GetFractionalMatrix()` fails explicitly with the
singular-lattice condition (`none`) instead of returning a garbage
inverse. -/
theorem fractional_singular_fails (u : OBUnitCell) (h : u.GetOrthoMatrix.det = 0) :
    u.GetFractionalMatrix = none := by
  rw [OBUnitCell.GetFractionalMatrix, if_pos h]

/-- A degenerate cell with zero `a` length (zero cell volume). -/
noncomputable def uDegen : OBUnitCell :=
  OBUnitCell.mk0.SetData 0 1 1 (Real.pi / 2) (Real.pi / 2) (Real.pi / 2)

/-- Witness for C5 at the concrete degenerate cell `uDegen`. -/
theorem fractional_singular_fails_witness :
    uDegen.GetOrthoMatrix.det = 0 ∧ uDegen.GetFractionalMatrix = none := by
  have h : uDegen.GetOrthoMatrix.det = 0 := by
    rw [orthoMatrix_det]
    simp [uDegen, OBUnitCell.SetData, OBUnitCell.mk0]
  exact ⟨h, fractional_singular_fails uDegen h⟩
